import Mathlib

/-!
Verification of the art-game daily puzzle engine: guess normalization and
correctness decision, feedback construction, the attempt/session state
machine, date resolution, the guess-submission endpoint, the daily-puzzle
payload, and the image-reveal zoom mapping.  Definitions are shallow
embeddings of the TypeScript sources (the server guess endpoint, the
page.client session machine, lib/dateUtils.ts, the today route, and the
ZoomableImage component).
-/

/-! ## JavaScript string primitives -/

/-- Characters treated as whitespace by JavaScript `trim` / `parseInt`
(space, tab, line feed, carriage return, vertical tab, form feed,
no-break space, BOM, line and paragraph separators). -/
def jsWhitespaceChar (c : Char) : Bool :=
  c = ' ' || c = '\t' || c = '\n' || c = '\r' || c = '\x0b' || c = '\x0c' ||
    c.toNat = 0xA0 || c.toNat = 0xFEFF || c.toNat = 0x2028 || c.toNat = 0x2029

/-- Strip leading and trailing JavaScript whitespace from a character list. -/
def jsTrimList (l : List Char) : List Char :=
  ((l.dropWhile jsWhitespaceChar).reverse.dropWhile jsWhitespaceChar).reverse

/-- JavaScript `String.prototype.trim`. -/
def jsTrim (s : String) : String :=
  String.mk (jsTrimList s.data)

/-- JavaScript `toLowerCase`, modelled on the ASCII and Latin-1 letter
repertoire used by the catalog (identity on other characters). -/
def jsToLowerChar (c : Char) : Char :=
  if 'A' ≤ c && c ≤ 'Z' then Char.ofNat (c.toNat + 32)
  else if 0xC0 ≤ c.toNat && c.toNat ≤ 0xDE && c.toNat ≠ 0xD7 then
    Char.ofNat (c.toNat + 32)
  else c

/-- Unicode NFD decomposition, modelled on the Latin-1 lowercase letters
(the repertoire reachable after `jsToLowerChar`); identity elsewhere.
Combining marks produced here lie in the U+0300 – U+036F block. -/
def nfdChar (c : Char) : List Char :=
  match c with
  | 'à' => ['a', '̀']
  | 'á' => ['a', '́']
  | 'â' => ['a', '̂']
  | 'ã' => ['a', '̃']
  | 'ä' => ['a', '̈']
  | 'å' => ['a', '̊']
  | 'ç' => ['c', '̧']
  | 'è' => ['e', '̀']
  | 'é' => ['e', '́']
  | 'ê' => ['e', '̂']
  | 'ë' => ['e', '̈']
  | 'ì' => ['i', '̀']
  | 'í' => ['i', '́']
  | 'î' => ['i', '̂']
  | 'ï' => ['i', '̈']
  | 'ñ' => ['n', '̃']
  | 'ò' => ['o', '̀']
  | 'ó' => ['o', '́']
  | 'ô' => ['o', '̂']
  | 'õ' => ['o', '̃']
  | 'ö' => ['o', '̈']
  | 'ù' => ['u', '̀']
  | 'ú' => ['u', '́']
  | 'û' => ['u', '̂']
  | 'ü' => ['u', '̈']
  | 'ý' => ['y', '́']
  | 'ÿ' => ['y', '̈']
  | _ => [c]

/-- Membership in the combining-mark block removed by the sources'
`replace(/[̀-ͯ]/g, '')`. -/
def isCombiningMark (c : Char) : Bool :=
  0x300 ≤ c.toNat && c.toNat ≤ 0x36F

/-- Server-side `normalizeString` (guess endpoint): lowercase, NFD
decomposition, strip combining marks, trim. -/
def normalizeString (s : String) : String :=
  String.mk (jsTrimList (((s.data.map jsToLowerChar).flatMap nfdChar).filter
    (fun c => !isCombiningMark c)))

/-- Client-side `normalizeString` (page.client): identical but without the
final trim. -/
def normalizeClient (s : String) : String :=
  String.mk (((s.data.map jsToLowerChar).flatMap nfdChar).filter
    (fun c => !isCombiningMark c))

/-- JavaScript `split` on a single separator character, keeping empty
segments, as in `name.split(' ')`. -/
def splitOnChar (sep : Char) (l : List Char) : List (List Char) :=
  l.foldr
    (fun c acc =>
      if c = sep then [] :: acc
      else
        match acc with
        | [] => [[c]]
        | h :: t => (c :: h) :: t)
    [[]]

/-- The last whitespace-delimited token of a name:
`name.split(' ').filter(Boolean).pop() || ''`. -/
def lastTokenRaw (s : String) : String :=
  String.mk ((((splitOnChar ' ' s.data).filter (fun t => !t.isEmpty)).getLast?).getD [])

/-- Longest leading run of decimal digits. -/
def leadingDigits (l : List Char) : List Char :=
  l.takeWhile Char.isDigit

/-- Decimal value of a digit list. -/
def digitsToNat (l : List Char) : Nat :=
  l.foldl (fun acc c => acc * 10 + (c.toNat - '0'.toNat)) 0

/-- JavaScript `parseInt(s, 10)`: skip leading whitespace, optional sign,
longest digit prefix; `none` models `NaN`. -/
def parseIntJS (s : String) : Option Int :=
  let cs := s.data.dropWhile jsWhitespaceChar
  match cs with
  | '-' :: r =>
    let ds := leadingDigits r
    if ds.isEmpty then none else some (-(digitsToNat ds : Int))
  | '+' :: r =>
    let ds := leadingDigits r
    if ds.isEmpty then none else some ((digitsToNat ds : Int))
  | r =>
    let ds := leadingDigits r
    if ds.isEmpty then none else some ((digitsToNat ds : Int))

/-- Lexicographic comparison of character lists by code point, as
JavaScript `<=` compares strings. -/
def charsLe : List Char → List Char → Bool
  | [], _ => true
  | _ :: _, [] => false
  | x :: xs, y :: ys =>
    if x.val < y.val then true
    else if y.val < x.val then false
    else charsLe xs ys

/-- JavaScript string `<=`. -/
def jsStrLe (a b : String) : Bool :=
  charsLe a.data b.data

/-! ## Date utilities (`src/lib/dateUtils.ts`)

The server clock is a parameter: `today` stands for the string returned by
`getTodayDateKey()` (the current UTC day as `YYYY-MM-DD`). -/

/-- Proleptic Gregorian leap-year test (as used by JavaScript `Date`). -/
def isLeapYear (y : Nat) : Bool :=
  (y % 4 = 0 && y % 100 ≠ 0) || y % 400 = 0

/-- Number of days in a month of the proleptic Gregorian calendar. -/
def daysInMonth (y m : Nat) : Nat :=
  if m = 1 then 31
  else if m = 2 then (if isLeapYear y then 29 else 28)
  else if m = 3 then 31
  else if m = 4 then 30
  else if m = 5 then 31
  else if m = 6 then 30
  else if m = 7 then 31
  else if m = 8 then 31
  else if m = 9 then 30
  else if m = 10 then 31
  else if m = 11 then 30
  else if m = 12 then 31
  else 0

/-- Numeric value of `n` decimal digit characters. -/
def digitsVal (l : List Char) : Nat := digitsToNat l

/-- The `ISO_DAY_REGEX` shape test `^\d{4}-\d{2}-\d{2}$` together with the
`new Date(candidate + 'T00:00:00Z')` / `toISOString()` round trip, which
accepts exactly the valid proleptic-Gregorian calendar dates written in
this zero-padded shape.  Returns the year, month and day on success. -/
def parseIsoDay (s : String) : Option (Nat × Nat × Nat) :=
  match s.data with
  | [y1, y2, y3, y4, h1, m1, m2, h2, d1, d2] =>
    if y1.isDigit && y2.isDigit && y3.isDigit && y4.isDigit &&
        h1 = '-' && m1.isDigit && m2.isDigit && h2 = '-' &&
        d1.isDigit && d2.isDigit then
      let y := digitsVal [y1, y2, y3, y4]
      let m := digitsVal [m1, m2]
      let d := digitsVal [d1, d2]
      if 1 ≤ m && m ≤ 12 && 1 ≤ d && d ≤ daysInMonth y m then
        some (y, m, d)
      else none
    else none
  | _ => none

/-- `normalizeDayKey` from `dateUtils.ts`: reject absent or empty input,
trim and truncate to 10 characters, then validate shape and calendar. -/
def normalizeDayKey (value : Option String) : Option String :=
  match value with
  | none => none
  | some s =>
    if s = "" then none
    else
      let candidate := String.mk ((jsTrimList s.data).take 10)
      if (parseIsoDay candidate).isSome then some candidate else none

/-- `resolvePlayableDate` from `dateUtils.ts`: a normalized day no later
than the server's current UTC day. -/
def resolvePlayableDate (today : String) (value : Option String) : Option String :=
  match normalizeDayKey value with
  | none => none
  | some day => if jsStrLe day today then some day else none

/-! ## Guess correctness (server guess endpoint `POST`) -/

/-- Correctness decision of the guess endpoint: the normalized guess equals
the normalized target name, or equals the normalized last whitespace token
of the target name when that normalized token is nonempty (the source
guards the surname branch with JavaScript truthiness of `targetLastName`). -/
def evalCorrect (targetArtist guess : String) : Bool :=
  let guessNorm := normalizeString guess
  let targetNorm := normalizeString targetArtist
  let targetLastName := normalizeString (lastTokenRaw targetArtist)
  guessNorm == targetNorm || (!(targetLastName == "") && guessNorm == targetLastName)

/-! ## Data model -/

/-- Reference data for a named artist (`artists` table row after the
endpoint's per-field `typeof` checks). -/
structure ArtistProfile where
  movement : Option String
  country : Option String
  birth_year : Option Int
  death_year : Option Int
  popularity_score : Option ℚ
deriving DecidableEq, Repr

/-- One structured comparative clue; `status` is one of the source's
string literals `match`, `earlier`, `later`, `different`, `info`,
`missing`. -/
structure FeedbackDetail where
  label : String
  value : String
  status : String
deriving DecidableEq, Repr

/-- `MAX_ATTEMPTS` of the guess endpoint and `maxAttempts` of the client. -/
def maxAttempts : Nat := 5

/-- `ASSUMED_MAX_ARTIST_AGE`. -/
def assumedMaxArtistAge : Int := 85

/-- Fame-hint `threshold`. -/
def fameThreshold : ℚ := 7

/-- JavaScript truthiness of a nullable string. -/
def jsTruthyStr (o : Option String) : Bool :=
  match o with
  | some s => s ≠ ""
  | none => false

/-! ## Server feedback construction (`buildFeedback`) -/

/-- Birth-year detail of the server `buildFeedback`. -/
def birthDetail (guessedBirth guessedDeath artYearNumber : Option Int) : FeedbackDetail :=
  match guessedBirth with
  | some b =>
    let aliveDuringPainting :=
      match guessedDeath, artYearNumber with
      | some d, some y => b ≤ y && y ≤ d
      | _, _ => false
    ⟨"Birth year", toString b, if aliveDuringPainting then "match" else "info"⟩
  | none => ⟨"Birth year", "—", "missing"⟩

/-- Death-year detail of the server `buildFeedback`. -/
def deathDetail (guessedDeath artYearNumber : Option Int) : FeedbackDetail :=
  match guessedDeath with
  | some d =>
    let past :=
      match artYearNumber with
      | some y => decide (d < y)
      | none => false
    ⟨"Death year", toString d, if past then "earlier" else "info"⟩
  | none => ⟨"Death year", "—", "missing"⟩

/-- Era-hint block of the server `buildFeedback`: emitted only when the
artwork year is numeric and at least one of the guessed birth/death years
is known, with `min(birth + 85, currentYear)` as estimated death year when
the real one is missing. -/
def eraDetails (guessedBirth guessedDeath artYearNumber : Option Int)
    (currentYear : Int) : List FeedbackDetail :=
  match artYearNumber with
  | none => []
  | some y =>
    if guessedBirth.isNone && guessedDeath.isNone then []
    else
      let fallbackDeath := guessedBirth.map (fun b => min (b + assumedMaxArtistAge) currentYear)
      let deathYear := match guessedDeath with
        | some d => some d
        | none => fallbackDeath
      if (match guessedBirth with | some b => decide (y < b) | none => false) then
        [⟨"Era hint", "Try an older artist", "earlier"⟩]
      else if (match deathYear with | some d => decide (d < y) | none => false) then
        [⟨"Era hint", "Try a more recent artist", "later"⟩]
      else
        [⟨"Era hint", "Within their lifetime", "match"⟩]

/-- `compareField` of the server `buildFeedback`. -/
def compareField (label : String) (targetValue guessValue : Option String) : FeedbackDetail :=
  if !jsTruthyStr guessValue then ⟨label, "—", "missing"⟩
  else
    let g := guessValue.getD ""
    if !jsTruthyStr targetValue then ⟨label, g, "info"⟩
    else
      let t := targetValue.getD ""
      ⟨label, g, if normalizeString t == normalizeString g then "match" else "different"⟩

/-- Fame-hint detail of the server `buildFeedback`. -/
def fameDetail (targetPopularity guessedPopularity : Option ℚ) : FeedbackDetail :=
  match targetPopularity, guessedPopularity with
  | some tp, some gp =>
    let delta := gp - tp
    if |delta| ≤ fameThreshold then ⟨"Fame hint", "Similar fame", "match"⟩
    else if fameThreshold < delta then
      ⟨"Fame hint", "Artist of the day is less famous", "different"⟩
    else ⟨"Fame hint", "Try a more famous artist", "different"⟩
  | _, _ => ⟨"Fame hint", "—", "missing"⟩

/-- Server `buildFeedback` from the guess endpoint: the fixed-order detail
sequence Birth year, Death year, Era hint (conditional), Movement,
Country, Fame hint, and a final data-absent notice when no profile
resolved for the guess. -/
def buildFeedback (guessedProfile targetProfile : Option ArtistProfile)
    (guessName : String) (artYear : Option String) (currentYear : Int) :
    List FeedbackDetail :=
  let guessedBirth := guessedProfile.bind (fun p => p.birth_year)
  let guessedDeath := guessedProfile.bind (fun p => p.death_year)
  let artYearNumber := artYear.bind parseIntJS
  [birthDetail guessedBirth guessedDeath artYearNumber] ++
    [deathDetail guessedDeath artYearNumber] ++
    eraDetails guessedBirth guessedDeath artYearNumber currentYear ++
    [compareField "Movement" (targetProfile.bind (fun p => p.movement))
      (guessedProfile.bind (fun p => p.movement))] ++
    [compareField "Country" (targetProfile.bind (fun p => p.country))
      (guessedProfile.bind (fun p => p.country))] ++
    [fameDetail (targetProfile.bind (fun p => p.popularity_score))
      (guessedProfile.bind (fun p => p.popularity_score))] ++
    (if guessedProfile.isNone then
      [⟨"Data", "No reference yet for \"" ++ guessName ++ "\".", "info"⟩]
    else [])

/-! ## Server guess endpoint (`POST`) -/

/-- A `daily_art` row as read by the guess endpoint, with per-field
`typeof` checks modelled as `Option`. -/
structure DailyArtRow where
  title : Option String
  artist : Option String
  year : Option String
  museum : Option String
  wiki_summary_url : Option String
  wiki_artist_summary_url : Option String
deriving DecidableEq, Repr

/-- The `revealedArtwork` payload of the guess endpoint. -/
structure RevealPayload where
  title : Option String
  artist : String
  year : Option String
  museum : Option String
  wiki_summary_url : Option String
  wiki_artist_summary_url : Option String
  artist_initial : Option String
  target_profile : Option ArtistProfile
deriving DecidableEq, Repr

/-- JavaScript `toUpperCase`, modelled on the ASCII and Latin-1 letter
repertoire (identity elsewhere); `ß` uppercases to `SS` and `ÿ` to `Ÿ`. -/
def jsUpperChars (c : Char) : List Char :=
  if 'a' ≤ c && c ≤ 'z' then [Char.ofNat (c.toNat - 32)]
  else if c = 'ß' then ['S', 'S']
  else if c = 'ÿ' then ['Ÿ']
  else if 0xE0 ≤ c.toNat && c.toNat ≤ 0xFE && c.toNat ≠ 0xF7 then
    [Char.ofNat (c.toNat - 32)]
  else [c]

/-- JavaScript `toUpperCase` on a string. -/
def jsToUpper (s : String) : String :=
  String.mk (s.data.flatMap jsUpperChars)

/-- JavaScript `charAt(0)`: the first character as a string, `""` when
empty. -/
def charAt0 (s : String) : String :=
  match s.data with
  | [] => ""
  | c :: _ => String.mk [c]

/-- The reveal payload built by the guess endpoint for a fetched artwork
row, before the give-up / guess branches. -/
def revealPayloadOf (artwork : DailyArtRow) (targetArtist : String)
    (targetProfile : Option ArtistProfile) : RevealPayload :=
  { title := artwork.title
    artist := targetArtist
    year := artwork.year
    museum := artwork.museum
    wiki_summary_url := artwork.wiki_summary_url
    wiki_artist_summary_url := artwork.wiki_artist_summary_url
    artist_initial := if targetArtist = "" then none else some (jsToUpper (charAt0 targetArtist))
    target_profile := targetProfile }

/-- The JSON body of a guess request, after JavaScript `typeof` checks:
a field is `some` exactly when it is present with the checked type;
`giveUp` is the `Boolean(...)` coercion of the raw field. -/
structure GuessRequestBody where
  date : Option String
  guess : Option String
  attemptsUsed : Option Int
  giveUp : Bool
deriving DecidableEq, Repr

/-- `normalizeGuess`: trim when the field is a string, else `''`. -/
def normalizeGuess (v : Option String) : String :=
  match v with
  | some s => jsTrim s
  | none => ""

/-- `parseAttemptsUsed`: `0` for a missing or non-numeric field, else
`Math.max(0, Math.floor(value))`. -/
def parseAttemptsUsed (v : Option Int) : Int :=
  match v with
  | none => 0
  | some n => max 0 n

/-- Response of the guess endpoint. -/
inductive GuessResponse where
  | error (status : Nat) (message : String)
  | ok (correct finished success : Bool) (feedback : List FeedbackDetail)
      (revealedArtwork : Option RevealPayload)
deriving DecidableEq, Repr

/-- The guess endpoint `POST` handler.  External collaborators are
parameters: `profiles` is `fetchArtistProfile` (exact-then-fuzzy lookup,
`none` on any failure), `daily` is the `daily_art` lookup by date,
`today` is `getTodayDateKey()` and `currentYear` the server's UTC year. -/
def postGuess (profiles : String → Option ArtistProfile)
    (daily : String → Option DailyArtRow) (today : String) (currentYear : Int)
    (body : Option GuessRequestBody) : GuessResponse :=
  match body with
  | none => .error 400 "Invalid request body"
  | some b =>
    let dateValue := b.date.getD today
    match resolvePlayableDate today (some dateValue) with
    | none => .error 404 "Puzzle not found"
    | some playableDate =>
      match daily playableDate with
      | none => .error 404 "Puzzle not found"
      | some artwork =>
        let targetArtist := jsTrim (artwork.artist.getD "")
        if targetArtist = "" then .error 500 "Puzzle answer unavailable"
        else
          let targetProfile := profiles targetArtist
          let revealPayload := revealPayloadOf artwork targetArtist targetProfile
          if b.giveUp then .ok false true false [] (some revealPayload)
          else
            let guess := normalizeGuess b.guess
            if guess = "" then .error 400 "Guess is required"
            else
              let attemptsUsed := parseAttemptsUsed b.attemptsUsed
              let correct := evalCorrect targetArtist guess
              let guessedProfile := if correct then targetProfile else profiles guess
              let feedback :=
                if correct then []
                else buildFeedback guessedProfile targetProfile guess artwork.year currentYear
              let nextAttempts := attemptsUsed + 1
              let finished := correct || decide ((maxAttempts : Int) ≤ nextAttempts)
              .ok correct finished correct feedback
                (if finished then some revealPayload else none)

/-! ## Client session machine (`page.client` `handleSubmit` / `handleGiveUp`)

The latest client revision guards submissions with the suggestion list, a
duplicate check and an in-flight lock, evaluates the guess locally, and
tracks `attemptsHistory`, `finished`, `success` and `gaveUp`. -/

/-- JavaScript truthiness of a nullable number. -/
def jsTruthyInt (o : Option Int) : Bool :=
  match o with
  | some n => n ≠ 0
  | none => false

/-- Client birth-year detail: `if (birth)` uses number truthiness, and
`aliveDuringPainting = death && artYearNumber >= birth && artYearNumber <= death`. -/
def birthDetailClient (birth death artYearNumber : Option Int) : FeedbackDetail :=
  if jsTruthyInt birth then
    let b := birth.getD 0
    let aliveDuringPainting :=
      jsTruthyInt death &&
        (match artYearNumber, death with
        | some y, some d => b ≤ y && y ≤ d
        | _, _ => false)
    ⟨"Birth year", toString b, if aliveDuringPainting then "match" else "info"⟩
  else ⟨"Birth year", "—", "missing"⟩

/-- Client death-year detail. -/
def deathDetailClient (death artYearNumber : Option Int) : FeedbackDetail :=
  if jsTruthyInt death then
    let d := death.getD 0
    let past :=
      match artYearNumber with
      | some y => decide (d < y)
      | none => false
    ⟨"Death year", toString d, if past then "earlier" else "info"⟩
  else ⟨"Death year", "—", "missing"⟩

/-- Client era-hint block: guarded by
`Number.isFinite(artYearNumber) && (birth || death)` (number truthiness),
with the same 85-year estimated death fallback as the server. -/
def eraDetailsClient (birth death artYearNumber : Option Int)
    (currentYear : Int) : List FeedbackDetail :=
  match artYearNumber with
  | none => []
  | some y =>
    if !(jsTruthyInt birth || jsTruthyInt death) then []
    else
      let birthYear := birth
      let fallbackDeath := birthYear.map (fun b => min (b + assumedMaxArtistAge) currentYear)
      let deathYear := match death with
        | some d => some d
        | none => fallbackDeath
      if (match birthYear with | some b => decide (y < b) | none => false) then
        [⟨"Era hint", "🔻 Try an older artist", "earlier"⟩]
      else if (match deathYear with | some d => decide (d < y) | none => false) then
        [⟨"Era hint", "🔺 Try a more recent artist", "later"⟩]
      else
        [⟨"Era hint", "Within their lifetime", "match"⟩]

/-- Client `compareField`: `info` when the target value is falsy or no
target profile is loaded at all. -/
def compareFieldClient (label : String) (actual guessField : Option String)
    (artistMetaPresent : Bool) : FeedbackDetail :=
  if !jsTruthyStr guessField then ⟨label, "—", "missing"⟩
  else
    let g := guessField.getD ""
    if !jsTruthyStr actual || !artistMetaPresent then ⟨label, g, "info"⟩
    else
      let t := actual.getD ""
      ⟨label, g, if normalizeClient t == normalizeClient g then "match" else "different"⟩

/-- Client feedback construction for an incorrect guess (the `!correct`
branch of `handleSubmit`). -/
def buildFeedbackClient (guessedData artistMeta : Option ArtistProfile)
    (artYear : Option String) (currentYear : Int) : List FeedbackDetail :=
  let birth := guessedData.bind (fun p => p.birth_year)
  let death := guessedData.bind (fun p => p.death_year)
  let artYearNumber := artYear.bind parseIntJS
  [birthDetailClient birth death artYearNumber] ++
    [deathDetailClient death artYearNumber] ++
    eraDetailsClient birth death artYearNumber currentYear ++
    [compareFieldClient "Movement" (artistMeta.bind (fun p => p.movement))
      (guessedData.bind (fun p => p.movement)) artistMeta.isSome] ++
    [compareFieldClient "Country" (artistMeta.bind (fun p => p.country))
      (guessedData.bind (fun p => p.country)) artistMeta.isSome] ++
    [fameDetail (artistMeta.bind (fun p => p.popularity_score))
      (guessedData.bind (fun p => p.popularity_score))] ++
    (if guessedData.isNone then
      [⟨"Data", "No reference yet for this artist.", "info"⟩]
    else [])

/-- One recorded attempt (`attemptsHistory` entry). -/
structure GuessAttempt where
  guess : String
  correct : Bool
  feedback : List FeedbackDetail
deriving DecidableEq, Repr

/-- Client session state: attempt history plus the `finished`, `success`,
`gaveUp` and `guessError` React state; `attemptsUsed` is
`attemptsHistory.length`. -/
structure SessionState where
  history : List GuessAttempt
  finished : Bool
  success : Bool
  gaveUp : Bool
  guessError : Option String
deriving DecidableEq, Repr

/-- Fresh session for a newly loaded puzzle. -/
def initialSession : SessionState :=
  ⟨[], false, false, false, none⟩

/-- Static context of one client session: the puzzle's artist, the
artist-hints list (name and reference data), the remote profile lookup,
the artwork year string and the current UTC year. -/
structure ClientConfig where
  targetArtist : String
  hints : List (String × ArtistProfile)
  getProfile : String → Option ArtistProfile
  artYear : Option String
  currentYear : Int

/-- Normalized names admitted by `allowedGuessSet` (the target's name plus
every hint name, skipping falsy names; membership is what the source's
`Set` provides). -/
def allowedNorms (cfg : ClientConfig) : List String :=
  (if cfg.targetArtist = "" then [] else [normalizeClient cfg.targetArtist]) ++
    cfg.hints.filterMap (fun h => if h.1 = "" then none else some (normalizeClient h.1))

/-- `artistMeta`: the hint whose normalized name matches the target's. -/
def artistMetaOf (cfg : ClientConfig) : Option ArtistProfile :=
  (cfg.hints.find? (fun h => normalizeClient h.1 == normalizeClient cfg.targetArtist)).map
    (fun h => h.2)

/-- Client correctness decision on an already-normalized guess. -/
def evalCorrectClient (cfg : ClientConfig) (guessNorm : String) : Bool :=
  let correctArtist := normalizeClient cfg.targetArtist
  let artistLastName := normalizeClient (lastTokenRaw cfg.targetArtist)
  guessNorm == correctArtist || (!(artistLastName == "") && guessNorm == artistLastName)

/-- `guessedArtistData`: the remote profile, falling back to the local
hint with the same normalized name. -/
def guessedDataFor (cfg : ClientConfig) (trimmedGuess guessNorm : String) :
    Option ArtistProfile :=
  match cfg.getProfile trimmedGuess with
  | some p => some p
  | none => (cfg.hints.find? (fun h => normalizeClient h.1 == guessNorm)).map (fun h => h.2)

/-- Client `handleSubmit`: no-op when finished or on an empty guess;
validation errors for guesses outside the suggestion list and for
duplicates of an already-recorded normalized guess; otherwise evaluate,
append the attempt and update the finished/success flags. -/
def submitGuess (cfg : ClientConfig) (s : SessionState) (rawGuess : String) :
    SessionState :=
  if s.finished then s
  else
    let trimmedGuess := jsTrim rawGuess
    if trimmedGuess = "" then s
    else
      let guessNorm := normalizeClient trimmedGuess
      if !((allowedNorms cfg).contains guessNorm) then
        { s with gaveUp := false, guessError := some "Pick an artist from the suggestions." }
      else if (s.history.map (fun a => normalizeClient a.guess)).contains guessNorm then
        { s with gaveUp := false, guessError := some "You already tried this artist." }
      else
        let correct := evalCorrectClient cfg guessNorm
        let guessedData := guessedDataFor cfg trimmedGuess guessNorm
        let feedback :=
          if correct then []
          else buildFeedbackClient guessedData (artistMetaOf cfg) cfg.artYear cfg.currentYear
        let nextAttemptCount := s.history.length + 1
        { history := s.history ++ [⟨trimmedGuess, correct, feedback⟩]
          finished := if correct then true
            else if maxAttempts ≤ nextAttemptCount then true else s.finished
          success := if correct then true else s.success
          gaveUp := false
          guessError := none }

/-- Client `handleGiveUp`: finish unsuccessfully without consuming an
attempt. -/
def giveUpStep (s : SessionState) : SessionState :=
  if s.finished then s
  else { history := s.history, finished := true, success := false, gaveUp := true,
         guessError := none }

/-- One user action on a session. -/
inductive ClientOp where
  | submit (rawGuess : String)
  | giveUp
deriving DecidableEq, Repr

/-- Apply one action. -/
def stepOp (cfg : ClientConfig) (s : SessionState) (op : ClientOp) : SessionState :=
  match op with
  | .submit g => submitGuess cfg s g
  | .giveUp => giveUpStep s

/-- Run a sequence of actions from a given state. -/
def runFrom (cfg : ClientConfig) (s : SessionState) (ops : List ClientOp) : SessionState :=
  ops.foldl (stepOp cfg) s

/-- Run a sequence of actions on a fresh session. -/
def runOps (cfg : ClientConfig) (ops : List ClientOp) : SessionState :=
  runFrom cfg initialSession ops

/-! ## Image reveal mapping (`ZoomableImage`)

JavaScript numbers are modelled as reals; `Math.pow` with the fractional
exponent `0.6` is real exponentiation. -/

/-- The zoom computation of `ZoomableImage` (latest revision): clamp the
inputs, add the reveal boost, normalize by `maxAttempts`, ease with
exponent `0.6` and scale to `maxZoom = 4.8`. -/
noncomputable def computeZoom (attempts maxAtt revealProgress : ℝ) : ℝ :=
  let safeMaxAttempts := max maxAtt 1
  let clampedAttempts := min (max attempts 0) safeMaxAttempts
  let revealClamped := min (max revealProgress 0) 1
  let revealBoost := revealClamped * (safeMaxAttempts * 0.6)
  let stage := min safeMaxAttempts (clampedAttempts + revealBoost)
  let normalized := stage / safeMaxAttempts
  let eased := (1 - normalized) ^ (0.6 : ℝ)
  let maxZoom := (4.8 : ℝ)
  let minZoom := (1 : ℝ)
  minZoom + eased * (maxZoom - minZoom)

/-- The zoom actually applied for a session, as the page invokes the
component: `attempts` is `displayAttempts = finished ? maxAttempts :
attemptsCount`, and `fit` is `'contain'` (zoom `1`) exactly when the full
image is shown, i.e. when finished. -/
noncomputable def zoomFromState (attemptsUsed maxAtt : ℝ) (finished : Bool)
    (revealProgress : ℝ) : ℝ :=
  let displayAttempts := if finished then maxAtt else attemptsUsed
  if finished then 1 else computeZoom displayAttempts maxAtt revealProgress

/-- The reveal-progress hint the page feeds to the component:
`Math.min(1, (attemptsCount + (finished ? 1 : 0)) / maxAttempts)`. -/
noncomputable def revealProgressOf (attemptsCount maxAtt : ℝ) (finished : Bool) : ℝ :=
  min 1 ((attemptsCount + (if finished then 1 else 0)) / maxAtt)

/-! ## Daily-puzzle endpoint (`src/app/api/today/route.ts`) -/

/-- A `daily_art` row as selected by the today route. -/
structure TodayRow where
  id : Int
  date : String
  image_url : String
  cached_image_url : Option String
  year : Option String
  museum : Option String
  artist : Option String
deriving DecidableEq, Repr

/-- The `PuzzlePayload` returned by the today route: the answer is
identified only by `artist_initial`. -/
structure PuzzlePayload where
  id : Int
  date : String
  image_url : String
  cached_image_url : Option String
  year : Option String
  museum : Option String
  artist_initial : Option String
  target_profile : Option ArtistProfile
deriving DecidableEq, Repr

/-- The keys of the JSON object the today route serializes, in source
order. -/
def puzzlePayloadKeys : List String :=
  ["id", "date", "image_url", "cached_image_url", "year", "museum",
   "artist_initial", "target_profile"]

/-- Payload construction of the today route for a fetched row: trim the
stored artist name, expose only its uppercased first character, and attach
the target's reference profile when the name resolves in the artists
catalog. -/
def buildTodayPayload (artists : String → Option ArtistProfile) (row : TodayRow) :
    PuzzlePayload :=
  let artistName := jsTrim (row.artist.getD "")
  let artistInitial := if artistName = "" then none else some (jsToUpper (charAt0 artistName))
  let targetProfile := if artistName = "" then none else artists artistName
  { id := row.id
    date := row.date
    image_url := row.image_url
    cached_image_url := row.cached_image_url
    year := row.year
    museum := row.museum
    artist_initial := artistInitial
    target_profile := targetProfile }

/-! ## Claim-side companion definitions -/

/-- Date resolution as the specification words it: trim the input,
truncate to 10 characters, demand the `YYYY-MM-DD` shape and a valid
calendar date, and reject days strictly after the server's current UTC
day; otherwise return the normalized day string. -/
def playableSpec (today : String) (value : Option String) : Option String :=
  match value with
  | none => none
  | some s =>
    let candidate := String.mk ((jsTrimList s.data).take 10)
    if (parseIsoDay candidate).isSome && jsStrLe candidate today then some candidate
    else none

/-- Era hint as the specification words it: emitted exactly when the
artwork year is numeric and at least one of the guessed birth/death years
is known; `earlier` when the artwork year precedes the birth year,
`later` when it exceeds the (possibly estimated) death year, `match`
otherwise. -/
def eraExpected (birth death artYearNumber : Option Int) (currentYear : Int) :
    List FeedbackDetail :=
  match artYearNumber with
  | none => []
  | some y =>
    match birth, death with
    | none, none => []
    | _, _ =>
      let estimatedDeath := match death with
        | some d => some d
        | none => birth.map (fun b => min (b + assumedMaxArtistAge) currentYear)
      if (match birth with | some b => decide (y < b) | none => false) then
        [⟨"Era hint", "Try an older artist", "earlier"⟩]
      else if (match estimatedDeath with | some d => decide (d < y) | none => false) then
        [⟨"Era hint", "Try a more recent artist", "later"⟩]
      else
        [⟨"Era hint", "Within their lifetime", "match"⟩]

/-! ## C1: surname tie-break -/

/-- C1 counterexample: for the target name `"Monet ◌̀"` (last raw token a
lone combining grave accent, which normalizes to the empty string) and the
guess `"◌̀"`, the normalized guess equals the normalized last
whitespace-delimited token of the target name, yet the guess evaluates
incorrect — the source's truthiness guard on `targetLastName` disables the
surname branch, so the claimed if-and-only-if fails at this input. -/
theorem c1_counterexample :
    evalCorrect "Monet ̀" "̀" = false ∧
    normalizeString "̀" = normalizeString (lastTokenRaw "Monet ̀") ∧
    normalizeString "̀" ≠ normalizeString "Monet ̀" := by
  decide

/-- C1 (amended): for every guess whose normalized form is nonempty, the
guess evaluates correct iff its normalized form equals the normalized full
target name or the normalized last whitespace-delimited token of the
target name; a guess normalizing to the empty string never matches through
the surname branch.  For target `"Claude Monet"`, the guesses `"monet"`,
`"Monet"`, `"MONET"` and `"Claude Monet"` evaluate correct, and `"Claude"`
does not. -/
theorem c1_surname_tie_break :
    (∀ targetArtist guess : String, normalizeString guess ≠ "" →
      (evalCorrect targetArtist guess = true ↔
        (normalizeString guess = normalizeString targetArtist ∨
         normalizeString guess = normalizeString (lastTokenRaw targetArtist)))) ∧
    evalCorrect "Claude Monet" "monet" = true ∧
    evalCorrect "Claude Monet" "Monet" = true ∧
    evalCorrect "Claude Monet" "MONET" = true ∧
    evalCorrect "Claude Monet" "Claude Monet" = true ∧
    evalCorrect "Claude Monet" "Claude" = false := by
  refine ⟨?_, by decide, by decide, by decide, by decide, by decide⟩
  intro t g hg
  simp only [evalCorrect, Bool.or_eq_true, Bool.and_eq_true, beq_iff_eq,
    Bool.not_eq_true', beq_eq_false_iff_ne, ne_eq]
  constructor
  · rintro (h | ⟨_, h⟩)
    · exact Or.inl h
    · exact Or.inr h
  · rintro (h | h)
    · exact Or.inl h
    · exact Or.inr ⟨fun he => hg (he ▸ h), h⟩

/-- C1 witness: the amended equivalence applied to the concrete target
`"Claude Monet"` and guess `"MONET"`. -/
theorem c1_surname_tie_break_witness :
    evalCorrect "Claude Monet" "MONET" = true ↔
      (normalizeString "MONET" = normalizeString "Claude Monet" ∨
       normalizeString "MONET" = normalizeString (lastTokenRaw "Claude Monet")) :=
  c1_surname_tie_break.1 "Claude Monet" "MONET" (by decide)

/-! ## C7: date resolution -/

/-- C7: `resolvePlayableDate` returns `null` exactly for absent, malformed
(wrong shape after trimming and truncation to 10 characters, or invalid
calendar date) or future inputs, and otherwise the normalized day string;
with server today `2024-06-15`, the inputs `2024-06-16`, `2024-06-15` and
`2024-02-30` resolve to `null`, `2024-06-15` and `null` respectively. -/
theorem c7_resolve_playable_date :
    (∀ today value, resolvePlayableDate today value = playableSpec today value) ∧
    resolvePlayableDate "2024-06-15" (some "2024-06-16") = none ∧
    resolvePlayableDate "2024-06-15" (some "2024-06-15") = some "2024-06-15" ∧
    resolvePlayableDate "2024-06-15" (some "2024-02-30") = none := by
  refine ⟨?_, by decide, by decide, by decide⟩
  intro today value
  cases value with
  | none => rfl
  | some s =>
    by_cases hs : s = ""
    · subst hs; rfl
    · simp only [resolvePlayableDate, normalizeDayKey, playableSpec, if_neg hs]
      by_cases hp : (parseIsoDay (String.mk ((jsTrimList s.data).take 10))).isSome
      · by_cases hl : jsStrLe (String.mk ((jsTrimList s.data).take 10)) today
        · simp [hp, hl]
        · simp [hp, hl]
      · simp [hp]

/-! ## C2: era hint -/

/-- Every detail the birth block produces is labelled `Birth year`. -/
theorem birthDetail_label (gb gd ay : Option Int) :
    (birthDetail gb gd ay).label = "Birth year" := by
  cases gb <;> rfl

/-- Every detail the death block produces is labelled `Death year`. -/
theorem deathDetail_label (gd ay : Option Int) :
    (deathDetail gd ay).label = "Death year" := by
  cases gd <;> rfl

/-- `compareField` keeps the label it is given. -/
theorem compareField_label (l : String) (t g : Option String) :
    (compareField l t g).label = l := by
  unfold compareField
  split <;> [rfl; split <;> rfl]

/-- The fame block is always labelled `Fame hint`. -/
theorem fameDetail_label (tp gp : Option ℚ) :
    (fameDetail tp gp).label = "Fame hint" := by
  cases tp <;> cases gp <;> simp only [fameDetail] <;>
    first
      | rfl
      | (split_ifs <;> rfl)

/-- Every detail of the era block is labelled `Era hint`. -/
theorem eraDetails_label (gb gd ay : Option Int) (cy : Int) :
    ∀ d ∈ eraDetails gb gd ay cy, d.label = "Era hint" := by
  intro d hd
  unfold eraDetails at hd
  cases ay with
  | none => simp at hd
  | some y =>
    cases gb <;> cases gd <;> dsimp only at hd
    · simp at hd
    all_goals (split_ifs at hd <;> simp_all)

/-- The source era block agrees with the specification's description. -/
theorem eraDetails_eq_eraExpected (gb gd ay : Option Int) (cy : Int) :
    eraDetails gb gd ay cy = eraExpected gb gd ay cy := by
  unfold eraDetails eraExpected
  cases ay with
  | none => rfl
  | some y => cases gb <;> cases gd <;> rfl

/-- Filtering for the era label drops any detail carrying another label. -/
theorem filter_era_singleton (x : FeedbackDetail) (hx : x.label ≠ "Era hint") :
    List.filter (fun d => d.label == "Era hint") [x] = [] := by
  simp [List.filter_singleton, hx]

/-- C2: in the feedback built for an incorrect guess, the Era-hint details
are exactly those the specification describes — present iff the artwork
year parses and a guessed birth or death year is known, `earlier` when the
artwork year precedes a known birth year, `later` when it exceeds the
known or estimated (`min(birth + 85, currentYear)`) death year, `match`
otherwise; artwork year 1500 against birth 1600 / death unknown gives
`earlier`, and against birth 1400 / death 1450 gives `later`. -/
theorem c2_era_hint :
    (∀ (gp tp : Option ArtistProfile) (gn : String) (ay : Option String) (cy : Int),
      (buildFeedback gp tp gn ay cy).filter (fun d => d.label == "Era hint") =
        eraExpected (gp.bind (fun p => p.birth_year)) (gp.bind (fun p => p.death_year))
          (ay.bind parseIntJS) cy) ∧
    (∀ (gb gd ay : Option Int) (cy : Int),
      (eraExpected gb gd ay cy).length =
        if ay.isSome && (gb.isSome || gd.isSome) then 1 else 0) ∧
    eraExpected (some 1600) none (some 1500) 2024 =
      [⟨"Era hint", "Try an older artist", "earlier"⟩] ∧
    eraExpected (some 1400) (some 1450) (some 1500) 2024 =
      [⟨"Era hint", "Try a more recent artist", "later"⟩] ∧
    (buildFeedback (some ⟨none, none, some 1600, none, none⟩) none "x" (some "1500")
        2024).filter (fun d => d.label == "Era hint") =
      [⟨"Era hint", "Try an older artist", "earlier"⟩] ∧
    (buildFeedback (some ⟨none, none, some 1400, some 1450, none⟩) none "x" (some "1500")
        2024).filter (fun d => d.label == "Era hint") =
      [⟨"Era hint", "Try a more recent artist", "later"⟩] := by
  refine ⟨?_, ?_, by decide, by decide, by decide, by decide⟩
  · intro gp tp gn ay cy
    unfold buildFeedback
    rw [List.filter_append, List.filter_append, List.filter_append,
      List.filter_append, List.filter_append, List.filter_append]
    rw [filter_era_singleton _ (by rw [birthDetail_label]; decide)]
    rw [filter_era_singleton _ (by rw [deathDetail_label]; decide)]
    rw [filter_era_singleton _ (by rw [compareField_label]; decide)]
    rw [filter_era_singleton _ (by rw [compareField_label]; decide)]
    rw [filter_era_singleton _ (by rw [fameDetail_label]; decide)]
    rw [List.filter_eq_self.mpr (by
      intro d hd
      have := eraDetails_label _ _ _ cy d hd
      simp [this])]
    rw [eraDetails_eq_eraExpected]
    have hdata : List.filter (fun d => d.label == "Era hint")
        (if (gp.isNone : Bool) then
          [⟨"Data", "No reference yet for \"" ++ gn ++ "\".", "info"⟩]
        else ([] : List FeedbackDetail)) = [] := by
      split
      · exact filter_era_singleton _ (by simp)
      · rfl
    rw [hdata]
    simp
  · intro gb gd ay cy
    unfold eraExpected
    cases ay with
    | none => rfl
    | some y =>
      cases gb <;> cases gd <;> dsimp only <;>
        first
          | rfl
          | (split_ifs <;> simp_all)

/-! ## C6: missing-data degradation -/

/-- C6: with no resolved profile for the guess, `buildFeedback` returns
exactly the fixed sequence Birth year, Death year, Movement, Country,
Fame hint — all `missing` — followed by the single `no reference`
informational detail, with no Era hint, for every target profile, guess
name, artwork year and current year; and the guess endpoint still records
such an attempt with an `ok` response carrying exactly that feedback. -/
theorem c6_missing_profile :
    (∀ (tp : Option ArtistProfile) (gn : String) (ay : Option String) (cy : Int),
      buildFeedback none tp gn ay cy =
        [⟨"Birth year", "—", "missing"⟩, ⟨"Death year", "—", "missing"⟩,
         ⟨"Movement", "—", "missing"⟩, ⟨"Country", "—", "missing"⟩,
         ⟨"Fame hint", "—", "missing"⟩,
         ⟨"Data", "No reference yet for \"" ++ gn ++ "\".", "info"⟩]) ∧
    (∀ (profiles : String → Option ArtistProfile) (daily : String → Option DailyArtRow)
        (today : String) (cy : Int) (b : GuessRequestBody) (pd : String)
        (row : DailyArtRow),
      resolvePlayableDate today (some (b.date.getD today)) = some pd →
      daily pd = some row →
      jsTrim (row.artist.getD "") ≠ "" →
      b.giveUp = false →
      normalizeGuess b.guess ≠ "" →
      profiles (normalizeGuess b.guess) = none →
      evalCorrect (jsTrim (row.artist.getD "")) (normalizeGuess b.guess) = false →
      (match postGuess profiles daily today cy (some b) with
       | .ok correct _ success fb _ =>
         correct = false ∧ success = false ∧
           fb = buildFeedback none (profiles (jsTrim (row.artist.getD "")))
             (normalizeGuess b.guess) row.year cy
       | .error _ _ => False)) := by
  constructor
  · intro tp gn ay cy
    have hera : eraDetails none none (ay.bind parseIntJS) cy = [] := by
      cases h : ay.bind parseIntJS <;> simp [eraDetails]
    cases tp with
    | none =>
      simp [buildFeedback, hera, birthDetail, deathDetail, compareField, fameDetail,
        jsTruthyStr]
    | some p =>
      cases hp : p.popularity_score <;>
        simp [buildFeedback, hera, birthDetail, deathDetail, compareField, fameDetail,
          jsTruthyStr, hp]
  · intro profiles daily today cy b pd row hres hdaily hartist hgu hguess hprof hcorrect
    unfold postGuess
    simp only [hres, hdaily, hgu, hcorrect, hprof, if_neg hartist,
      if_neg (fun h => hguess h)]
    simp

/-! ## Session-machine lemmas -/

/-- A finished session ignores further submissions. -/
theorem submitGuess_of_finished (cfg : ClientConfig) (s : SessionState) (g : String)
    (h : s.finished = true) : submitGuess cfg s g = s := by
  unfold submitGuess
  rw [if_pos h]

/-- Giving up never touches the attempt history. -/
theorem giveUpStep_history (s : SessionState) : (giveUpStep s).history = s.history := by
  unfold giveUpStep
  split <;> rfl

/-- The server feedback for an incorrect guess is never empty (it always
starts with the Birth-year detail). -/
theorem buildFeedback_not_empty (gp tp : Option ArtistProfile) (gn : String)
    (ay : Option String) (cy : Int) : (buildFeedback gp tp gn ay cy).isEmpty = false := by
  unfold buildFeedback
  cases gp.bind (fun p => p.birth_year) <;> rfl

/-- The client feedback for an incorrect guess is never empty. -/
theorem buildFeedbackClient_not_empty (gd am : Option ArtistProfile)
    (ay : Option String) (cy : Int) :
    (buildFeedbackClient gd am ay cy).isEmpty = false := by
  unfold buildFeedbackClient
  cases h : jsTruthyInt (gd.bind (fun p => p.birth_year)) <;>
    simp [birthDetailClient, h]

/-- One step preserves the "feedback empty iff correct" property of every
recorded attempt. -/
theorem step_feedback_inv (cfg : ClientConfig) (s : SessionState) (op : ClientOp)
    (h : ∀ a ∈ s.history, a.feedback.isEmpty = a.correct) :
    ∀ a ∈ (stepOp cfg s op).history, a.feedback.isEmpty = a.correct := by
  cases op with
  | giveUp =>
    intro a ha
    simp only [stepOp, giveUpStep_history] at ha
    exact h a ha
  | submit g =>
    intro a ha
    simp only [stepOp] at ha
    unfold submitGuess at ha
    split at ha
    · exact h a ha
    · dsimp only at ha
      split at ha
      · exact h a ha
      · split at ha
        · exact h a ha
        · split at ha
          · exact h a ha
          · dsimp only at ha
            rw [List.mem_append] at ha
            rcases ha with ha | ha
            · exact h a ha
            · simp only [List.mem_singleton] at ha
              subst ha
              dsimp only
              by_cases hc : evalCorrectClient cfg (normalizeClient (jsTrim g)) = true
              · simp [hc]
              · simp only [Bool.not_eq_true] at hc
                simp [hc, buildFeedbackClient_not_empty]

/-- The reachable-state invariant of one session: finished exactly on
success, on an exhausted attempt budget, or after a give-up; the attempt
count never exceeds the budget. -/
def SessionInv (s : SessionState) : Prop :=
  (s.finished = true ↔
    (s.success = true ∨ s.history.length = maxAttempts ∨ s.gaveUp = true)) ∧
  s.history.length ≤ maxAttempts

/-- The fresh session satisfies the invariant. -/
theorem sessionInv_initial : SessionInv initialSession := by
  constructor <;> simp [initialSession, maxAttempts]

/-- Every step preserves the session invariant. -/
theorem sessionInv_step (cfg : ClientConfig) (s : SessionState) (op : ClientOp)
    (h : SessionInv s) : SessionInv (stepOp cfg s op) := by
  obtain ⟨hiff, hlen⟩ := h
  cases op with
  | giveUp =>
    simp only [stepOp]
    unfold giveUpStep
    split
    · exact ⟨hiff, hlen⟩
    · exact ⟨by simp, hlen⟩
  | submit g =>
    simp only [stepOp]
    unfold submitGuess
    split
    · exact ⟨hiff, hlen⟩
    · rename_i hnf
      have hsf : s.finished = false := by simpa using hnf
      have hrhs : ¬(s.success = true ∨ s.history.length = maxAttempts ∨
          s.gaveUp = true) := fun hr => by rw [hiff.mpr hr] at hsf; cases hsf
      push_neg at hrhs
      obtain ⟨hsucc, hmax, hgu⟩ := hrhs
      have hsucc' : s.success = false := by simpa using hsucc
      have hgu' : s.gaveUp = false := by simpa using hgu
      dsimp only
      split
      · exact ⟨hiff, hlen⟩
      · split
        · exact ⟨by simp [hsf, hsucc', hgu', hmax], hlen⟩
        · split
          · exact ⟨by simp [hsf, hsucc', hgu', hmax], hlen⟩
          · constructor
            · by_cases hc :
                evalCorrectClient cfg (normalizeClient (jsTrim g)) = true
              · simp [hc]
              · simp only [Bool.not_eq_true] at hc
                simp only [hc, Bool.false_eq_true, if_false, List.length_append,
                  List.length_singleton, hsf, hsucc', false_or, or_false]
                simp only [maxAttempts] at hlen hmax ⊢
                split_ifs with h5
                · simp only [true_iff]
                  omega
                · simp only [hsf, false_iff]
                  omega
            · simp only [List.length_append, List.length_singleton]
              simp only [maxAttempts] at hlen hmax ⊢
              omega

/-- Running any action sequence preserves the session invariant. -/
theorem sessionInv_runFrom (cfg : ClientConfig) :
    ∀ (ops : List ClientOp) (s : SessionState), SessionInv s →
      SessionInv (runFrom cfg s ops) := by
  intro ops
  induction ops with
  | nil => intro s h; exact h
  | cons op rest ih =>
    intro s h
    exact ih (stepOp cfg s op) (sessionInv_step cfg s op h)

/-- Running any action sequence preserves the per-attempt "feedback empty
iff correct" property. -/
theorem feedback_inv_runFrom (cfg : ClientConfig) :
    ∀ (ops : List ClientOp) (s : SessionState),
      (∀ a ∈ s.history, a.feedback.isEmpty = a.correct) →
      ∀ a ∈ (runFrom cfg s ops).history, a.feedback.isEmpty = a.correct := by
  intro ops
  induction ops with
  | nil => intro s h; exact h
  | cons op rest ih =>
    intro s h
    exact ih (stepOp cfg s op) (step_feedback_inv cfg s op h)

/-- An operation that is a submission of a guess the engine evaluates as
incorrect. -/
def IncorrectSubmit (cfg : ClientConfig) (op : ClientOp) : Prop :=
  match op with
  | .submit g => evalCorrectClient cfg (normalizeClient (jsTrim g)) = false
  | .giveUp => False

instance (cfg : ClientConfig) (op : ClientOp) : Decidable (IncorrectSubmit cfg op) := by
  unfold IncorrectSubmit
  cases op <;> infer_instance

/-- A submission of an incorrect guess keeps `success` and `gaveUp`
unset. -/
theorem step_no_correct (cfg : ClientConfig) (s : SessionState) (op : ClientOp)
    (hop : IncorrectSubmit cfg op) (hsucc : s.success = false)
    (hgu : s.gaveUp = false) :
    (stepOp cfg s op).success = false ∧ (stepOp cfg s op).gaveUp = false := by
  cases op with
  | giveUp => exact absurd hop (by simp [IncorrectSubmit])
  | submit g =>
    unfold IncorrectSubmit at hop
    simp only [stepOp]
    unfold submitGuess
    split
    · exact ⟨hsucc, hgu⟩
    · dsimp only
      split
      · exact ⟨hsucc, hgu⟩
      · split
        · exact ⟨hsucc, rfl⟩
        · split
          · exact ⟨hsucc, rfl⟩
          · simp [hop, hsucc]

/-- Running incorrect submissions only keeps `success` and `gaveUp`
unset. -/
theorem run_no_correct (cfg : ClientConfig) :
    ∀ (ops : List ClientOp) (s : SessionState),
      (∀ op ∈ ops, IncorrectSubmit cfg op) → s.success = false → s.gaveUp = false →
      (runFrom cfg s ops).success = false ∧ (runFrom cfg s ops).gaveUp = false := by
  intro ops
  induction ops with
  | nil => intro s _ hsucc hgu; exact ⟨hsucc, hgu⟩
  | cons op rest ih =>
    intro s hops hsucc hgu
    have hstep := step_no_correct cfg s op (hops op (by simp)) hsucc hgu
    exact ih (stepOp cfg s op) (fun o ho => hops o (by simp [ho])) hstep.1 hstep.2

/-! ## C3: feedback empty iff correct -/

/-- C3: feedback accompanies exactly the incorrect guesses — the server
engine never returns empty feedback for an incorrect guess, every attempt
recorded by the client session machine has empty feedback exactly when it
is correct, and every non-give-up `ok` response of the guess endpoint has
empty feedback exactly when the guess was correct. -/
theorem c3_feedback_empty_iff_correct :
    (∀ (gp tp : Option ArtistProfile) (gn : String) (ay : Option String) (cy : Int),
      (buildFeedback gp tp gn ay cy).isEmpty = false) ∧
    (∀ (cfg : ClientConfig) (ops : List ClientOp),
      ∀ a ∈ (runOps cfg ops).history, a.feedback.isEmpty = a.correct) ∧
    (∀ (profiles : String → Option ArtistProfile) (daily : String → Option DailyArtRow)
        (today : String) (cy : Int) (b : GuessRequestBody)
        (c f su : Bool) (fb : List FeedbackDetail) (rv : Option RevealPayload),
      b.giveUp = false →
      postGuess profiles daily today cy (some b) = .ok c f su fb rv →
      fb.isEmpty = c) := by
  refine ⟨buildFeedback_not_empty, ?_, ?_⟩
  · intro cfg ops a ha
    exact feedback_inv_runFrom cfg ops initialSession (by simp [initialSession]) a ha
  · intro profiles daily today cy b c f su fb rv hgu hpost
    unfold postGuess at hpost
    dsimp only at hpost
    split at hpost
    · cases hpost
    · split at hpost
      · cases hpost
      · split at hpost
        · cases hpost
        · simp only [hgu, Bool.false_eq_true, if_false] at hpost
          split at hpost
          · cases hpost
          · cases hpost
            split
            · rename_i hc
              simp [hc]
            · rename_i hc
              simp only [Bool.not_eq_true] at hc
              rw [hc]
              exact buildFeedback_not_empty _ _ _ _ _

/-! ## C4: attempt budget and finish invariant -/

/-- C4: for every session run, `finished` holds exactly on success, an
exhausted budget of `maxAttempts = 5` or a give-up; the attempt count
never exceeds the budget; a finished session accepts no further
submissions; and over any sequence of incorrect (non-give-up) submissions,
`finished` becomes true exactly when the attempt count reaches 5. -/
theorem c4_attempt_budget :
    ∀ (cfg : ClientConfig) (ops : List ClientOp),
      ((runOps cfg ops).finished = true ↔
        ((runOps cfg ops).success = true ∨
         (runOps cfg ops).history.length = maxAttempts ∨
         (runOps cfg ops).gaveUp = true)) ∧
      (runOps cfg ops).history.length ≤ maxAttempts ∧
      ((runOps cfg ops).finished = true →
        ∀ g, submitGuess cfg (runOps cfg ops) g = runOps cfg ops) ∧
      ((∀ op ∈ ops, IncorrectSubmit cfg op) →
        ((runOps cfg ops).finished = true ↔
          (runOps cfg ops).history.length = maxAttempts)) := by
  intro cfg ops
  have hinv := sessionInv_runFrom cfg ops initialSession sessionInv_initial
  refine ⟨hinv.1, hinv.2, ?_, ?_⟩
  · intro hf g
    exact submitGuess_of_finished cfg _ g hf
  · intro hops
    have hrun := run_no_correct cfg ops initialSession hops rfl rfl
    unfold runOps
    rw [hinv.1, hrun.1, hrun.2]
    simp

/-! ## C5: duplicate guesses are rejected -/

/-- C5: submitting a guess whose normalized form matches an
already-recorded attempt never extends the history (so `attemptsUsed`
does not grow), and on an unfinished session with a nonempty guess from
the allowed suggestion set it is rejected exactly as the duplicate
validation error. -/
theorem c5_duplicate_rejected :
    ∀ (cfg : ClientConfig) (s : SessionState) (g : String),
      (∃ a ∈ s.history, normalizeClient a.guess = normalizeClient (jsTrim g)) →
      ((submitGuess cfg s g).history = s.history ∧
       (s.finished = false → jsTrim g ≠ "" →
        (allowedNorms cfg).contains (normalizeClient (jsTrim g)) = true →
        submitGuess cfg s g =
          { s with gaveUp := false,
                   guessError := some "You already tried this artist." })) := by
  intro cfg s g hdup
  have hcontains : (s.history.map (fun a => normalizeClient a.guess)).contains
      (normalizeClient (jsTrim g)) = true := by
    rcases hdup with ⟨a, ha, hna⟩
    have hmem : normalizeClient (jsTrim g) ∈
        s.history.map (fun a => normalizeClient a.guess) :=
      List.mem_map.mpr ⟨a, ha, hna⟩
    simpa using hmem
  constructor
  · unfold submitGuess
    dsimp only
    split_ifs with h1 h2 h3
    · rfl
    · rfl
    · rfl
    · rfl
  · intro hnf hne hallowed
    unfold submitGuess
    rw [if_neg (by simp [hnf])]
    dsimp only
    rw [if_neg hne]
    rw [if_neg (fun h => by rw [hallowed] at h; cases h)]
    rw [if_pos hcontains]

/-! ## C8: endpoint error statuses -/

/-- Example daily-art row used in concrete instantiations. -/
def exRow : DailyArtRow :=
  ⟨some "Mona Lisa", some "Leonardo da Vinci", some "1503", none, none, none⟩

/-- Example daily-art store with one puzzle on 2024-06-15. -/
def exDaily : String → Option DailyArtRow :=
  fun d => if d = "2024-06-15" then some exRow else none

/-- Example artists store with no profiles at all. -/
def exProfiles : String → Option ArtistProfile := fun _ => none

/-- C8 counterexample: a malformed date yields status 404 (the same
"Puzzle not found" response as a missing puzzle), not the claimed 400, and
is not treated as "no date provided": the identical request without a date
falls back to today and is answered with a 200 response. -/
theorem c8_counterexample :
    postGuess exProfiles exDaily "2024-06-15" 2024
        (some ⟨some "not-a-date", some "Monet", some 0, false⟩) =
      .error 404 "Puzzle not found" ∧
    postGuess exProfiles exDaily "2024-06-15" 2024
        (some ⟨none, some "Monet", some 0, false⟩) =
      .ok false false false (buildFeedback none none "Monet" (some "1503") 2024)
        none := by
  exact ⟨rfl, rfl⟩

/-- C8 (amended): a missing or non-object body yields 400; a supplied date
that is malformed or in the future yields 404 exactly like a date with no
stored puzzle; with a resolvable date, an existing puzzle and no give-up,
a missing or empty guess yields 400; and only an absent (non-string) date
field falls back to the server's today. -/
theorem c8_error_statuses :
    ∀ (profiles : String → Option ArtistProfile)
      (daily : String → Option DailyArtRow) (today : String) (cy : Int),
      (postGuess profiles daily today cy none = .error 400 "Invalid request body") ∧
      (∀ b : GuessRequestBody,
        resolvePlayableDate today (some (b.date.getD today)) = none →
        postGuess profiles daily today cy (some b) = .error 404 "Puzzle not found") ∧
      (∀ (b : GuessRequestBody) (pd : String),
        resolvePlayableDate today (some (b.date.getD today)) = some pd →
        daily pd = none →
        postGuess profiles daily today cy (some b) = .error 404 "Puzzle not found") ∧
      (∀ (b : GuessRequestBody) (pd : String) (row : DailyArtRow),
        resolvePlayableDate today (some (b.date.getD today)) = some pd →
        daily pd = some row → jsTrim (row.artist.getD "") ≠ "" → b.giveUp = false →
        normalizeGuess b.guess = "" →
        postGuess profiles daily today cy (some b) = .error 400 "Guess is required") ∧
      (∀ b : GuessRequestBody, b.date = none →
        postGuess profiles daily today cy (some b) =
          postGuess profiles daily today cy (some { b with date := some today })) := by
  intro profiles daily today cy
  refine ⟨rfl, ?_, ?_, ?_, ?_⟩
  · intro b h
    unfold postGuess
    simp only [h]
  · intro b pd h hd
    unfold postGuess
    simp only [h, hd]
  · intro b pd row h hd hartist hgu hguess
    unfold postGuess
    simp only [h, hd, hgu, if_neg hartist, Bool.false_eq_true, if_false, hguess,
      if_pos]
  · intro b h
    unfold postGuess
    simp only [h, Option.getD_none, Option.getD_some]

/-! ## C9: zoom mapping -/

/-- The clamped stage divided by the (positive) attempt bound is at most
one. -/
theorem stage_div_le_one (sm x : ℝ) (hsm : 0 < sm) : min sm x / sm ≤ 1 := by
  rw [div_le_one hsm]
  exact min_le_left _ _

/-- The zoom formula is non-increasing in the attempt count. -/
theorem computeZoom_antitone (m rp a b : ℝ) (h : a ≤ b) :
    computeZoom b m rp ≤ computeZoom a m rp := by
  unfold computeZoom
  have hsm : (0 : ℝ) < max m 1 := lt_of_lt_of_le zero_lt_one (le_max_right m 1)
  have hnorm :
      min (max m 1) (min (max a 0) (max m 1) + min (max rp 0) 1 * (max m 1 * 0.6)) /
          max m 1 ≤
        min (max m 1) (min (max b 0) (max m 1) + min (max rp 0) 1 * (max m 1 * 0.6)) /
          max m 1 := by
    gcongr
  have hle1 := stage_div_le_one (max m 1)
    (min (max b 0) (max m 1) + min (max rp 0) 1 * (max m 1 * 0.6)) hsm
  have heased :
      (1 - min (max m 1) (min (max b 0) (max m 1) +
          min (max rp 0) 1 * (max m 1 * 0.6)) / max m 1) ^ (0.6 : ℝ) ≤
        (1 - min (max m 1) (min (max a 0) (max m 1) +
          min (max rp 0) 1 * (max m 1 * 0.6)) / max m 1) ^ (0.6 : ℝ) :=
    Real.rpow_le_rpow (by linarith) (by linarith) (by norm_num)
  have hmul := mul_le_mul_of_nonneg_right heased (by norm_num : (0 : ℝ) ≤ 4.8 - 1)
  dsimp only
  linarith

/-- The zoom formula never drops below the floor `1`. -/
theorem one_le_computeZoom (a m rp : ℝ) : 1 ≤ computeZoom a m rp := by
  unfold computeZoom
  have hsm : (0 : ℝ) < max m 1 := lt_of_lt_of_le zero_lt_one (le_max_right m 1)
  have hle1 := stage_div_le_one (max m 1)
    (min (max a 0) (max m 1) + min (max rp 0) 1 * (max m 1 * 0.6)) hsm
  have he : (0 : ℝ) ≤
      (1 - min (max m 1) (min (max a 0) (max m 1) +
        min (max rp 0) 1 * (max m 1 * 0.6)) / max m 1) ^ (0.6 : ℝ) :=
    Real.rpow_nonneg (by linarith) _
  have hmul := mul_le_mul_of_nonneg_right he (by norm_num : (0 : ℝ) ≤ 4.8 - 1)
  dsimp only
  nlinarith [he]

/-- At the full attempt budget the zoom formula snaps to `1`. -/
theorem computeZoom_at_max (m rp : ℝ) (h : 1 ≤ m) : computeZoom m m rp = 1 := by
  unfold computeZoom
  dsimp only
  have hm0 : (0 : ℝ) < m := lt_of_lt_of_le zero_lt_one h
  have hb0 : 0 ≤ min (max rp 0) 1 * (m * 0.6) :=
    mul_nonneg (le_min (le_max_right _ _) zero_le_one)
      (mul_nonneg hm0.le (by norm_num))
  rw [max_eq_left h, max_eq_left hm0.le, min_self]
  rw [min_eq_left (by linarith : m ≤ m + min (max rp 0) 1 * (m * 0.6))]
  rw [div_self (ne_of_gt hm0), sub_self,
    Real.zero_rpow (by norm_num : (0.6 : ℝ) ≠ 0)]
  norm_num

/-- C9 counterexample: the zoom the page applies with 4 of 5 attempts
used, `finished = false` and the page's own reveal-progress hint `4/5`
already equals `1.0`, so zoom 1.0 is not reached exactly when finished. -/
theorem c9_counterexample : zoomFromState 4 5 false (4 / 5) = 1 := by
  unfold zoomFromState
  rw [if_neg (fun hc => Bool.false_ne_true hc), if_neg (fun hc => Bool.false_ne_true hc)]
  unfold computeZoom
  dsimp only
  rw [max_eq_left (by norm_num : (1 : ℝ) ≤ 5),
    max_eq_left (by norm_num : (0 : ℝ) ≤ 4),
    min_eq_left (by norm_num : (4 : ℝ) ≤ 5),
    max_eq_left (by norm_num : (0 : ℝ) ≤ 4 / 5),
    min_eq_left (by norm_num : (4 / 5 : ℝ) ≤ 1)]
  rw [show (4 : ℝ) + 4 / 5 * (5 * 0.6) = 32 / 5 by norm_num]
  rw [min_eq_left (by norm_num : (5 : ℝ) ≤ 32 / 5)]
  rw [show (1 : ℝ) - 5 / 5 = 0 by norm_num]
  rw [Real.zero_rpow (by norm_num : (0.6 : ℝ) ≠ 0)]
  norm_num

/-- The page's reveal-progress hint for 4 of 5 attempts, unfinished, is
`4/5`. -/
theorem revealProgressOf_four_of_five : revealProgressOf 4 5 false = 4 / 5 := by
  unfold revealProgressOf
  rw [if_neg (fun hc => Bool.false_ne_true hc)]
  norm_num

/-- C9 (amended): the applied zoom is non-increasing in the attempt count,
never drops below the floor `1.0`, and equals `1.0` whenever the session
is finished (both through the full-image fit and through the formula at
`attempts = maxAttempts`); it can however reach `1.0` before the session
finishes, once the clamped attempts plus the reveal boost cover the
attempt budget. -/
theorem c9_zoom :
    (∀ (m rp : ℝ) (fin : Bool) (a b : ℝ), a ≤ b →
      zoomFromState b m fin rp ≤ zoomFromState a m fin rp) ∧
    (∀ (a m rp : ℝ) (fin : Bool), 1 ≤ zoomFromState a m fin rp) ∧
    (∀ (a m rp : ℝ), zoomFromState a m true rp = 1) ∧
    (∀ (m rp : ℝ), 1 ≤ m → computeZoom m m rp = 1) := by
  refine ⟨?_, ?_, ?_, fun m rp h => computeZoom_at_max m rp h⟩
  · intro m rp fin a b h
    cases fin with
    | true => simp [zoomFromState]
    | false =>
      unfold zoomFromState
      rw [if_neg (fun hc => Bool.false_ne_true hc),
        if_neg (fun hc => Bool.false_ne_true hc)]
      exact computeZoom_antitone m rp a b h
  · intro a m rp fin
    cases fin with
    | true => simp [zoomFromState]
    | false =>
      unfold zoomFromState
      rw [if_neg (fun hc => Bool.false_ne_true hc)]
      exact one_le_computeZoom a m rp
  · intro a m rp
    simp [zoomFromState]

/-- C9 witness: the amended statement applied at concrete inputs. -/
theorem c9_zoom_witness :
    zoomFromState 3 5 false 0 ≤ zoomFromState 2 5 false 0 ∧
      computeZoom 5 5 (1 / 2) = 1 :=
  ⟨c9_zoom.1 5 0 false 2 3 (by norm_num), c9_zoom.2.2.2 5 (1 / 2) (by norm_num)⟩

/-! ## C10: daily-puzzle payload -/

/-- C10: the today-route payload names exactly the keys `id`, `date`,
`image_url`, `cached_image_url`, `year`, `museum`, `artist_initial` and
`target_profile` — neither the artist's name nor the artwork title — and
identifies the answer only by `artist_initial`, the uppercased first
character of the trimmed stored artist name (`null` when blank), while
always carrying the target's reference profile when the name resolves. -/
theorem c10_answer_only_initial :
    (puzzlePayloadKeys =
      ["id", "date", "image_url", "cached_image_url", "year", "museum",
       "artist_initial", "target_profile"]) ∧
    (puzzlePayloadKeys.contains "artist" = false) ∧
    (puzzlePayloadKeys.contains "title" = false) ∧
    (∀ (artists : String → Option ArtistProfile) (row : TodayRow),
      (buildTodayPayload artists row).artist_initial =
        (match (jsTrim (row.artist.getD "")).data with
         | [] => none
         | c :: _ => some (jsToUpper (String.mk [c])))) ∧
    (∀ (artists : String → Option ArtistProfile) (row : TodayRow),
      (buildTodayPayload artists row).target_profile =
        (if jsTrim (row.artist.getD "") = "" then none
         else artists (jsTrim (row.artist.getD "")))) := by
  refine ⟨rfl, by decide, by decide, ?_, fun artists row => rfl⟩
  intro artists row
  unfold buildTodayPayload charAt0
  dsimp only
  cases hd : (jsTrim (row.artist.getD "")).data with
  | nil =>
    have h : jsTrim (row.artist.getD "") = "" := congrArg String.mk hd
    rw [if_pos h]
  | cons c rest =>
    have h : jsTrim (row.artist.getD "") ≠ "" := by
      intro he
      rw [he] at hd
      cases hd
    rw [if_neg h]

/-! ## Remaining witnesses -/

/-- Example artist hints for concrete session runs: five incorrect
candidates plus the puzzle's target. -/
def exHints : List (String × ArtistProfile) :=
  [("Pablo Picasso", ⟨some "Cubism", some "Spain", some 1881, some 1973, none⟩),
   ("Rembrandt", ⟨some "Baroque", some "Netherlands", some 1606, some 1669, none⟩),
   ("Johannes Vermeer", ⟨some "Baroque", some "Netherlands", some 1632, some 1675, none⟩),
   ("Edgar Degas", ⟨some "Impressionism", some "France", some 1834, some 1917, none⟩),
   ("Paul Cezanne", ⟨some "Post-Impressionism", some "France", some 1839, some 1906, none⟩),
   ("Claude Monet", ⟨some "Impressionism", some "France", some 1840, some 1926, none⟩)]

/-- Example client session context. -/
def exCfg : ClientConfig :=
  { targetArtist := "Claude Monet"
    hints := exHints
    getProfile := fun _ => none
    artYear := some "1503"
    currentYear := 2024 }

/-- Five submissions of distinct incorrect artists. -/
def exFiveWrong : List ClientOp :=
  [.submit "Pablo Picasso", .submit "Rembrandt", .submit "Johannes Vermeer",
   .submit "Edgar Degas", .submit "Paul Cezanne"]

/-- C3 witness: the empty-iff-correct property applied to a concrete
recorded attempt and to a concrete endpoint response. -/
theorem c3_feedback_empty_iff_correct_witness :
    (((runOps exCfg [ClientOp.submit "Pablo Picasso"]).history.headD
        ⟨"", false, []⟩).feedback.isEmpty =
      ((runOps exCfg [ClientOp.submit "Pablo Picasso"]).history.headD
        ⟨"", false, []⟩).correct) ∧
    (buildFeedback none none "Monet" (some "1503") 2024).isEmpty = false :=
  ⟨c3_feedback_empty_iff_correct.2.1 exCfg [ClientOp.submit "Pablo Picasso"] _
      (by decide),
   c3_feedback_empty_iff_correct.2.2 exProfiles exDaily "2024-06-15" 2024
      ⟨none, some "Monet", some 0, false⟩ false false false
      (buildFeedback none none "Monet" (some "1503") 2024) none rfl rfl⟩

/-- C4 witness: after five incorrect submissions the concrete session is
finished with the budget exhausted, and a sixth submission is ignored. -/
theorem c4_attempt_budget_witness :
    (runOps exCfg exFiveWrong).finished = true ∧
    (runOps exCfg exFiveWrong).history.length = maxAttempts ∧
    submitGuess exCfg (runOps exCfg exFiveWrong) "Claude Monet" =
      runOps exCfg exFiveWrong :=
  ⟨((c4_attempt_budget exCfg exFiveWrong).2.2.2 (by decide)).mpr (by decide),
   by decide,
   (c4_attempt_budget exCfg exFiveWrong).2.2.1
     (((c4_attempt_budget exCfg exFiveWrong).2.2.2 (by decide)).mpr (by decide))
     "Claude Monet"⟩

/-- C5 witness: resubmitting the already-recorded guess of a concrete
session leaves the history unchanged and raises the duplicate validation
error. -/
theorem c5_duplicate_rejected_witness :
    (submitGuess exCfg (runOps exCfg [ClientOp.submit "Pablo Picasso"])
        "Pablo Picasso").history =
      (runOps exCfg [ClientOp.submit "Pablo Picasso"]).history ∧
    submitGuess exCfg (runOps exCfg [ClientOp.submit "Pablo Picasso"])
        "Pablo Picasso" =
      { runOps exCfg [ClientOp.submit "Pablo Picasso"] with
          gaveUp := false,
          guessError := some "You already tried this artist." } :=
  ⟨(c5_duplicate_rejected exCfg _ "Pablo Picasso" (by decide)).1,
   (c5_duplicate_rejected exCfg _ "Pablo Picasso" (by decide)).2 (by decide)
     (by decide) (by decide)⟩

/-- C6 witness: the fixed degraded feedback for a concrete profile-less
guess, and the concrete endpoint response recording such an attempt. -/
theorem c6_missing_profile_witness :
    buildFeedback none (some ⟨some "High Renaissance", some "Italy", some 1452,
        some 1519, some 97⟩) "Banksy" (some "1503") 2024 =
      [⟨"Birth year", "—", "missing"⟩, ⟨"Death year", "—", "missing"⟩,
       ⟨"Movement", "—", "missing"⟩, ⟨"Country", "—", "missing"⟩,
       ⟨"Fame hint", "—", "missing"⟩,
       ⟨"Data", "No reference yet for \"Banksy\".", "info"⟩] ∧
    (match postGuess exProfiles exDaily "2024-06-15" 2024
        (some ⟨none, some "Banksy", some 0, false⟩) with
     | .ok correct _ success fb _ =>
       correct = false ∧ success = false ∧
         fb = buildFeedback none (exProfiles "Leonardo da Vinci") "Banksy"
           (some "1503") 2024
     | .error _ _ => False) :=
  ⟨c6_missing_profile.1 (some ⟨some "High Renaissance", some "Italy", some 1452,
      some 1519, some 97⟩) "Banksy" (some "1503") 2024,
   by
    have h := c6_missing_profile.2 exProfiles exDaily "2024-06-15" 2024
      ⟨none, some "Banksy", some 0, false⟩ "2024-06-15" exRow (by decide) (by decide)
      (by decide) rfl (by decide) rfl (by decide)
    simpa [exRow] using h⟩

/-- C8 witness: the amended status characterization applied to a future
date (404) and to a missing guess (400) on the concrete store. -/
theorem c8_error_statuses_witness :
    postGuess exProfiles exDaily "2024-06-15" 2024
        (some ⟨some "2024-06-20", some "Monet", some 0, false⟩) =
      .error 404 "Puzzle not found" ∧
    postGuess exProfiles exDaily "2024-06-15" 2024
        (some ⟨some "2024-06-15", none, some 0, false⟩) =
      .error 400 "Guess is required" :=
  ⟨(c8_error_statuses exProfiles exDaily "2024-06-15" 2024).2.1 _ (by decide),
   (c8_error_statuses exProfiles exDaily "2024-06-15" 2024).2.2.2.1 _ "2024-06-15"
     exRow (by decide) (by decide) (by decide) rfl rfl⟩
